import Mathlib

/-!
Verification development for the Bitcoin HTLC atomic-swap core of the
AtomicSwap repository.  Python sources are embedded shallowly:

* `fee_calculator`, `_get_previous_transaction_indexes`,
  `is_transaction_raw`, `decode_transaction_raw`
  come from `swap/providers/bitcoin/utils.py`;
* the `Transaction` / `FundTransaction` / `ClaimTransaction` /
  `RefundTransaction` classes come from
  `shuttle/providers/bitcoin/transaction.py`.

Python integers are embedded as `Int` (amounts, fees) or `Nat` (counts,
indexes, sequence numbers); fallible methods return `Except PyError`.
-/

namespace AtomicSwap

/-- fee_calculator from swap/providers/bitcoin/utils.py (lines 71-89):
`transaction_input = ((transaction_input - 1) * 444) + 576`;
`transaction_output = ((transaction_output - 1) * 102)`;
result is their sum.  Python subtraction is exact, hence `Int`. -/
def fee_calculator (transaction_input : Nat := 1) (transaction_output : Nat := 1) : Int :=
  (((transaction_input : Int) - 1) * 444 + 576) + ((transaction_output : Int) - 1) * 102

/-- A UTXO dict as consumed by `_get_previous_transaction_indexes` and
`_build_inputs` in swap/providers/bitcoin/utils.py: keys `value`,
`tx_hash`, `tx_output_n`, `script`. -/
structure SwapUTXO where
  value : Int
  tx_hash : String
  tx_output_n : Nat
  script : String
deriving DecidableEq, Repr

/-- The loop body shared by `_get_previous_transaction_indexes`
(swap/providers/bitcoin/utils.py lines 300-309) and
`FundTransaction.get_previous_transaction_indexes`
(shuttle/providers/bitcoin/transaction.py lines 141-152), over the list
of UTXO values: `temp_amount += value`; if
`temp_amount > amount + fee_calculator(index + 1, 2)` append the index
and break, else append the index and continue. -/
def selectIndexesAux (values : List Int) (amount : Int) (index : Nat) (temp_amount : Int) :
    List Nat :=
  match values with
  | [] => []
  | v :: rest =>
    let t := temp_amount + v
    if t > amount + fee_calculator (index + 1) 2 then [index]
    else index :: selectIndexesAux rest amount (index + 1) t

/-- _get_previous_transaction_indexes from swap/providers/bitcoin/utils.py
(lines 300-309), iterating over `utxo["value"]`. -/
def _get_previous_transaction_indexes (utxos : List SwapUTXO) (amount : Int) : List Nat :=
  selectIndexesAux (utxos.map (fun u => u.value)) amount 0 0

/-- Sum of the values of the first `k` UTXOs of the list (the accumulated
`temp_amount` after the `k`-th loop iteration). -/
def prefixValue (utxos : List SwapUTXO) (k : Nat) : Int :=
  ((utxos.take k).map (fun u => u.value)).sum

/-- Sum of the first `k` entries of a list of values. -/
def sumTake (values : List Int) (k : Nat) : Int :=
  (values.take k).sum

theorem prefixValue_eq_sumTake (utxos : List SwapUTXO) (k : Nat) :
    prefixValue utxos k = sumTake (utxos.map (fun u => u.value)) k := by
  simp [prefixValue, sumTake, List.map_take]

theorem sumTake_succ_cons (v : Int) (rest : List Int) (j : Nat) :
    sumTake (v :: rest) (j + 1) = v + sumTake rest j := by
  simp [sumTake]

/-- The selector always returns a contiguous prefix of indexes starting
at its initial `index` argument. -/
theorem selectIndexesAux_eq_range' (values : List Int) (amount : Int) (index : Nat)
    (temp_amount : Int) :
    selectIndexesAux values amount index temp_amount
      = List.range' index (selectIndexesAux values amount index temp_amount).length := by
  induction values generalizing index temp_amount with
  | nil => simp [selectIndexesAux]
  | cons v rest ih =>
    by_cases h : temp_amount + v > amount + fee_calculator (index + 1) 2
    · simp [selectIndexesAux, h, List.range']
    · have := ih (index + 1) (temp_amount + v)
      simp only [selectIndexesAux, h, if_neg, if_false]
      simp only [List.length_cons]
      rw [List.range'_succ]
      exact congrArg (index :: ·) this

/-- The selector never selects more indexes than there are UTXOs. -/
theorem selectIndexesAux_length_le (values : List Int) (amount : Int) (index : Nat)
    (temp_amount : Int) :
    (selectIndexesAux values amount index temp_amount).length ≤ values.length := by
  induction values generalizing index temp_amount with
  | nil => simp [selectIndexesAux]
  | cons v rest ih =>
    by_cases h : temp_amount + v > amount + fee_calculator (index + 1) 2
    · simp [selectIndexesAux, h]
    · simp only [selectIndexesAux, h, if_false, List.length_cons]
      exact Nat.succ_le_succ (ih (index + 1) (temp_amount + v))

/-- If no loop iteration ever triggers the strict stop test, every index
is selected. -/
theorem selectIndexesAux_exhausts (values : List Int) (amount : Int) (index : Nat)
    (temp_amount : Int)
    (hnone : ∀ j, 1 ≤ j → j ≤ values.length →
      ¬ (temp_amount + sumTake values j > amount + fee_calculator (index + j) 2)) :
    selectIndexesAux values amount index temp_amount = List.range' index values.length := by
  induction values generalizing index temp_amount with
  | nil => simp [selectIndexesAux]
  | cons v rest ih =>
    have h1 : ¬ (temp_amount + v > amount + fee_calculator (index + 1) 2) := by
      have := hnone 1 le_rfl (by simp)
      simpa [sumTake] using this
    simp only [selectIndexesAux, h1, if_false, List.length_cons]
    rw [List.range'_succ]
    refine congrArg (index :: ·) (ih (index + 1) (temp_amount + v) ?_)
    intro j hj1 hj2
    have := hnone (j + 1) (Nat.le_add_left 1 j) (by simpa using Nat.succ_le_succ hj2)
    rw [sumTake_succ_cons] at this
    have harith : index + 1 + j = index + (j + 1) := by omega
    rw [harith]
    intro hcon
    exact this (by linarith)

/-- If the `k`-th iteration is the first to trigger the strict stop test,
the selector returns exactly the indexes of the first `k` UTXOs. -/
theorem selectIndexesAux_minimal_hit (values : List Int) (amount : Int) (index : Nat)
    (temp_amount : Int) (k : Nat) (hk1 : 1 ≤ k) (hk2 : k ≤ values.length)
    (hhit : temp_amount + sumTake values k > amount + fee_calculator (index + k) 2)
    (hmin : ∀ j, 1 ≤ j → j < k →
      ¬ (temp_amount + sumTake values j > amount + fee_calculator (index + j) 2)) :
    selectIndexesAux values amount index temp_amount = List.range' index k := by
  induction values generalizing index temp_amount k with
  | nil => simp only [List.length_nil] at hk2; omega
  | cons v rest ih =>
    match k, hk1 with
    | 1, _ =>
      have h1 : temp_amount + v > amount + fee_calculator (index + 1) 2 := by
        have := hhit
        rw [sumTake_succ_cons] at this
        simpa [sumTake] using this
      simp [selectIndexesAux, h1, List.range']
    | k' + 2, _ =>
      have h1 : ¬ (temp_amount + v > amount + fee_calculator (index + 1) 2) := by
        have := hmin 1 le_rfl (by omega)
        simpa [sumTake] using this
      simp only [selectIndexesAux, h1, if_false]
      rw [List.range'_succ]
      refine congrArg (index :: ·) (ih (index + 1) (temp_amount + v) (k' + 1) (by omega) ?_ ?_ ?_)
      · simpa using Nat.le_of_succ_le_succ hk2
      · rw [sumTake_succ_cons] at hhit
        have harith : index + 1 + (k' + 1) = index + (k' + 2) := by omega
        rw [harith]
        linarith
      · intro j hj1 hj2
        have := hmin (j + 1) (Nat.le_add_left 1 j) (by omega)
        rw [sumTake_succ_cons] at this
        have harith : index + 1 + j = index + (j + 1) := by omega
        rw [harith]
        intro hcon
        exact this (by linarith)

/-!
SHA-256.  `double_sha256` is imported by shuttle/providers/bitcoin/transaction.py
from its sibling utils module, which is not among the given sources; per its
name and the spec (secret commitments are cryptographic digests of the secret)
it is SHA-256 applied twice to the input bytes.  The implementation below is
the FIPS 180-4 algorithm over `Nat` with explicit reduction mod 2^32; messages
and digests are byte lists.
-/

/-- 2^32, the modulus of 32-bit words. -/
def wordMod : Nat := 4294967296

/-- Rotate a 32-bit word right by `n` bits. -/
def rotr32 (n x : Nat) : Nat :=
  ((x >>> n) ||| (x <<< (32 - n))) % wordMod

/-- SHA-256 round constants (first 32 bits of the fractional parts of the
cube roots of the first 64 primes). -/
def sha256K : List Nat :=
  [1116352408, 1899447441, 3049323471, 3921009573, 961987163, 1508970993,
   2453635748, 2870763221, 3624381080, 310598401, 607225278, 1426881987,
   1925078388, 2162078206, 2614888103, 3248222580, 3835390401, 4022224774,
   264347078, 604807628, 770255983, 1249150122, 1555081692, 1996064986,
   2554220882, 2821834349, 2952996808, 3210313671, 3336571891, 3584528711,
   113926993, 338241895, 666307205, 773529912, 1294757372, 1396182291,
   1695183700, 1986661051, 2177026350, 2456956037, 2730485921, 2820302411,
   3259730800, 3345764771, 3516065817, 3600352804, 4094571909, 275423344,
   430227734, 506948616, 659060556, 883997877, 958139571, 1322822218,
   1537002063, 1747873779, 1955562222, 2024104815, 2227730452, 2361852424,
   2428436474, 2756734187, 3204031479, 3329325298]

/-- SHA-256 initial hash value. -/
def sha256H0 : List Nat :=
  [1779033703, 3144134277, 1013904242, 2773480762,
   1359893119, 2600822924, 528734635, 1541459225]

/-- Group a byte list into big-endian 32-bit words, four bytes per word. -/
def bytesToWords : List Nat → List Nat
  | a :: b :: c :: d :: rest =>
      (a * 16777216 + b * 65536 + c * 256 + d) :: bytesToWords rest
  | _ => []

/-- Split a 32-bit word into four big-endian bytes. -/
def wordsToBytes : List Nat → List Nat
  | [] => []
  | w :: rest =>
      (w >>> 24) % 256 :: (w >>> 16) % 256 :: (w >>> 8) % 256 :: w % 256 :: wordsToBytes rest

/-- Big-endian 8-byte encoding of a message bit length. -/
def lengthBytes64 (x : Nat) : List Nat :=
  [(x >>> 56) % 256, (x >>> 48) % 256, (x >>> 40) % 256, (x >>> 32) % 256,
   (x >>> 24) % 256, (x >>> 16) % 256, (x >>> 8) % 256, x % 256]

/-- SHA-256 padding: append 0x80, zero bytes to 56 mod 64, then the
64-bit big-endian bit length. -/
def sha256Pad (msg : List Nat) : List Nat :=
  let L := msg.length
  let K := (119 - (L % 64)) % 64
  msg ++ [0x80] ++ List.replicate K 0 ++ lengthBytes64 (8 * L)

/-- Extend 16 message-schedule words to 64 using the small sigma functions. -/
def sha256Schedule (ws : List Nat) : List Nat :=
  (List.range 48).foldl
    (fun w _ =>
      let n := w.length
      let w15 := w.getD (n - 15) 0
      let w2 := w.getD (n - 2) 0
      let s0 := rotr32 7 w15 ^^^ rotr32 18 w15 ^^^ (w15 >>> 3)
      let s1 := rotr32 17 w2 ^^^ rotr32 19 w2 ^^^ (w2 >>> 10)
      w ++ [(w.getD (n - 16) 0 + s0 + w.getD (n - 7) 0 + s1) % wordMod])
    ws

/-- The SHA-256 working state (a, b, c, d, e, f, g, h). -/
structure Sha256State where
  a : Nat
  b : Nat
  c : Nat
  d : Nat
  e : Nat
  f : Nat
  g : Nat
  h : Nat
deriving DecidableEq, Repr

/-- One SHA-256 compression round for the pair (round constant, schedule word). -/
def sha256Round (st : Sha256State) (kw : Nat × Nat) : Sha256State :=
  let S1 := rotr32 6 st.e ^^^ rotr32 11 st.e ^^^ rotr32 25 st.e
  let ch := (st.e &&& st.f) ^^^ ((st.e ^^^ 4294967295) &&& st.g)
  let t1 := (st.h + S1 + ch + kw.1 + kw.2) % wordMod
  let S0 := rotr32 2 st.a ^^^ rotr32 13 st.a ^^^ rotr32 22 st.a
  let maj := (st.a &&& st.b) ^^^ (st.a &&& st.c) ^^^ (st.b &&& st.c)
  let t2 := (S0 + maj) % wordMod
  ⟨(t1 + t2) % wordMod, st.a, st.b, st.c, (st.d + t1) % wordMod, st.e, st.f, st.g⟩

/-- Compress one 64-byte block into the running 8-word hash value. -/
def sha256Block (h : List Nat) (block : List Nat) : List Nat :=
  let w := sha256Schedule (bytesToWords block)
  let init : Sha256State :=
    ⟨h.getD 0 0, h.getD 1 0, h.getD 2 0, h.getD 3 0,
     h.getD 4 0, h.getD 5 0, h.getD 6 0, h.getD 7 0⟩
  let st := (sha256K.zip w).foldl sha256Round init
  [(h.getD 0 0 + st.a) % wordMod, (h.getD 1 0 + st.b) % wordMod,
   (h.getD 2 0 + st.c) % wordMod, (h.getD 3 0 + st.d) % wordMod,
   (h.getD 4 0 + st.e) % wordMod, (h.getD 5 0 + st.f) % wordMod,
   (h.getD 6 0 + st.g) % wordMod, (h.getD 7 0 + st.h) % wordMod]

/-- Fold the compression function over `n` consecutive 64-byte blocks. -/
def sha256Blocks (h : List Nat) (padded : List Nat) : Nat → List Nat
  | 0 => h
  | n + 1 => sha256Blocks (sha256Block h (padded.take 64)) (padded.drop 64) n

/-- SHA-256 of a byte list, as a 32-byte digest. -/
def sha256 (msg : List Nat) : List Nat :=
  let padded := sha256Pad msg
  wordsToBytes (sha256Blocks sha256H0 padded (padded.length / 64))

/-- double_sha256 imported by shuttle/providers/bitcoin/transaction.py from
its utils module (not among the given sources): SHA-256 applied twice. -/
def double_sha256 (msg : List Nat) : List Nat :=
  sha256 (sha256 msg)

/-!
Transaction data model, embedding the btcpy structures used by
shuttle/providers/bitcoin/transaction.py.  The btcpy hex serialization
(`hexlify` / `unhexlify`) is injective, so raw transaction hex is modelled
by the transaction value itself; likewise `txid` (a digest of the
serialization) is modelled by the transaction value.
-/

/-- Python exceptions raised by the embedded code. -/
inductive PyError
  | valueError (msg : String)
  | attributeError (msg : String)
  | balanceError (msg : String)
  | transactionRawError (msg : String)
  | keyError (key : String)
deriving DecidableEq, Repr

instance exceptDecEq {ε α : Type} [DecidableEq ε] [DecidableEq α] :
    DecidableEq (Except ε α)
  | .ok a, .ok b => decidable_of_iff (a = b) (by simp)
  | .error a, .error b => decidable_of_iff (a = b) (by simp)
  | .ok _, .error _ => isFalse (by simp)
  | .error _, .ok _ => isFalse (by simp)

/-- A script_pubkey as built by the sources: `P2shScript.unhexlify h`,
`P2pkhScript.unhexlify h`, or `Script.unhexlify h`, each carrying its hex. -/
inductive ScriptPubKey
  | p2sh (hex : String)
  | p2pkh (hex : String)
  | script (hex : String)
deriving DecidableEq, Repr

/-- btcpy `Sequence.max()`: the all-ones 32-bit sequence number, which
disables relative-timelock (BIP 68/112) enforcement for the input. -/
def sequenceMax : Nat := 4294967295

/-- btcpy `TxIn(txid, txout, script_sig=ScriptSig.empty(), sequence)`:
the script_sig of every built input is empty, so only the other three
fields are carried. -/
structure TxInModel where
  txid : String
  txout : Nat
  sequence : Nat
deriving DecidableEq, Repr

/-- btcpy `TxOut(value, n, script_pubkey)`. -/
structure TxOutModel where
  value : Int
  n : Nat
  script_pubkey : ScriptPubKey
deriving DecidableEq, Repr

/-- btcpy `MutableTransaction(version, ins, outs, locktime)`. -/
structure MutableTx where
  version : Nat
  ins : List TxInModel
  outs : List TxOutModel
  locktime : Nat
deriving DecidableEq, Repr

/-- A UTXO dict as consumed by the shuttle `Transaction.inputs` /
`Transaction.outputs` static methods and the fund selector: keys
`amount`, `hash`, `output_index`, `script`. -/
structure UTXO where
  amount : Int
  hash : String
  output_index : Nat
  script : String
deriving DecidableEq, Repr

/-- Modelled from the spec: the shuttle Bitcoin wallet class is an external
collaborator (spec section 1); the transaction builders consume only its
`unspent()` UTXO list, its `p2pkh()` script hex and its `address()` string,
which we carry as a record. -/
structure Wallet where
  unspent : List UTXO
  p2pkh : String
  address : String
deriving DecidableEq, Repr

/-- Modelled from the spec: the Bitcoin HTLC builder (htlc.py) is not among
the given sources.  Per the spec (sections 3 and 4.1) the contract script
bytes are a pure, deterministic function of the secret hash, the two
counterparty identities and the timeout, and changing any one input changes
the script; we therefore represent the script by the tuple of its four
parameters. -/
structure HTLCScript where
  secret_hash : List Nat
  recipient_address : String
  sender_address : String
  sequence : Nat
deriving DecidableEq, Repr

/-- `HTLC(network).init(secret_hash, recipient_address, sender_address,
sequence).script`, as used by ClaimTransaction.sign / RefundTransaction.sign. -/
def HTLC.init (secret_hash : List Nat) (recipient_address sender_address : String)
    (sequence : Nat) : HTLCScript :=
  ⟨secret_hash, recipient_address, sender_address, sequence⟩

/-- Modelled from the spec: FundSolver (solver.py is not among the given
sources) needs only a private key (spec section 4.5). -/
structure FundSolver where
  private_key : String
deriving DecidableEq, Repr

/-- Modelled from the spec and the sign methods of
shuttle/providers/bitcoin/transaction.py, which read `solver.secret` and
`solver.sequence`: ClaimSolver carries a private key, the secret preimage
bytes, and the timeout sequence. -/
structure ClaimSolver where
  private_key : String
  secret : List Nat
  sequence : Nat
deriving DecidableEq, Repr

/-- Modelled from the spec and the sign methods of
shuttle/providers/bitcoin/transaction.py, which read `solver.secret` and
`solver.sequence`: RefundSolver carries the same three fields. -/
structure RefundSolver where
  private_key : String
  secret : List Nat
  sequence : Nat
deriving DecidableEq, Repr

/-- Modelled from the spec: the inner witness produced by `solver.solve()`
selects a redemption branch and carries the signing key, plus the revealed
secret on the claim branch (spec section 4.5). -/
inductive InnerWitness
  | fund (key : String)
  | claim (key : String) (secret : List Nat)
  | refund (key : String)
deriving DecidableEq, Repr

/-- FundSolver.solve: a plain P2PKH signing witness. -/
def FundSolver.solve (s : FundSolver) : InnerWitness :=
  .fund s.private_key

/-- ClaimSolver.solve: the claim branch witness revealing the secret. -/
def ClaimSolver.solve (s : ClaimSolver) : InnerWitness :=
  .claim s.private_key s.secret

/-- RefundSolver.solve: the refund branch witness. -/
def RefundSolver.solve (s : RefundSolver) : InnerWitness :=
  .refund s.private_key

/-- The unlocking witness attached to one spent input: either a plain
P2PKH witness, or a btcpy `P2shSolver(redeem_script, inner_solver)`
witness embedding the redeem script. -/
inductive Witness
  | p2pkh (inner : InnerWitness)
  | p2sh (redeem_script : HTLCScript) (inner : InnerWitness)
deriving DecidableEq, Repr

/-- Result of `MutableTransaction.spend(txouts, solvers)`: the built
transaction together with the spent outputs and the witnesses attached
to its inputs. -/
structure SignedResult where
  transaction : MutableTx
  spent_outputs : List TxOutModel
  witnesses : List Witness
deriving DecidableEq, Repr

/-!
The shuttle `Transaction` base class and its three variants.  Each Python
instance is embedded as a state record; methods that mutate `self` return
an updated record, methods that can raise return `Except PyError`.
-/

/-- Transaction.hash (shuttle/providers/bitcoin/transaction.py lines 46-50):
raises ValueError while `self.transaction` is None, else returns the txid
(modelled by the transaction value, txid being a digest of its
serialization). -/
def Transaction.hash (transaction : Option MutableTx) : Except PyError MutableTx :=
  match transaction with
  | none => .error (.valueError "transaction script is none, Please build transaction first.")
  | some tx => .ok tx

/-- Transaction.raw (lines 58-62): raises ValueError while
`self.transaction` is None, else returns the hex serialization (modelled
by the transaction value, hexlify being injective). -/
def Transaction.raw (transaction : Option MutableTx) : Except PyError MutableTx :=
  match transaction with
  | none => .error (.valueError "transaction script is none, Please build transaction first.")
  | some tx => .ok tx

/-- Python `previous_transaction_indexes is None or index in previous_transaction_indexes`. -/
def selectedIndex (previous_transaction_indexes : Option (List Nat)) (index : Nat) : Bool :=
  match previous_transaction_indexes with
  | none => true
  | some l => l.contains index

/-- Loop of the static `Transaction.inputs` (lines 64-73): enumerate the
UTXOs, and for each selected index accumulate the amount and append
`TxIn(txid=utxo["hash"], txout=utxo["output_index"],
script_sig=ScriptSig.empty(), sequence=Sequence.max())`. -/
def inputsGo (utxos : List UTXO) (previous_transaction_indexes : Option (List Nat))
    (index : Nat) (inputs : List TxInModel) (amount : Int) : List TxInModel × Int :=
  match utxos with
  | [] => (inputs, amount)
  | u :: rest =>
    if selectedIndex previous_transaction_indexes index then
      inputsGo rest previous_transaction_indexes (index + 1)
        (inputs ++ [⟨u.hash, u.output_index, sequenceMax⟩]) (amount + u.amount)
    else
      inputsGo rest previous_transaction_indexes (index + 1) inputs amount

/-- Transaction.inputs static method: the selected inputs and their
accumulated amount. -/
def Transaction.inputs (utxos : List UTXO)
    (previous_transaction_indexes : Option (List Nat) := none) : List TxInModel × Int :=
  inputsGo utxos previous_transaction_indexes 0 [] 0

/-- Loop of the static `Transaction.outputs` (lines 75-83): for each
selected index append `TxOut(value=utxo["amount"], n=utxo["output_index"],
script_pubkey=Script.unhexlify(utxo["script"]))`. -/
def outputsGo (utxos : List UTXO) (previous_transaction_indexes : Option (List Nat))
    (index : Nat) (outputs : List TxOutModel) : List TxOutModel :=
  match utxos with
  | [] => outputs
  | u :: rest =>
    if selectedIndex previous_transaction_indexes index then
      outputsGo rest previous_transaction_indexes (index + 1)
        (outputs ++ [⟨u.amount, u.output_index, .script u.script⟩])
    else
      outputsGo rest previous_transaction_indexes (index + 1) outputs

/-- Transaction.outputs static method. -/
def Transaction.outputs (utxos : List UTXO)
    (previous_transaction_indexes : Option (List Nat) := none) : List TxOutModel :=
  outputsGo utxos previous_transaction_indexes 0 []

/-- The mutable state of a shuttle FundTransaction instance. -/
structure FundState where
  version : Nat := 2
  network : String := "testnet"
  fee : Int := 0
  transaction : Option MutableTx := none
  wallet : Option Wallet := none
  htlc : Option String := none
  amount : Option Int := none
  unspent : Option (List UTXO) := none
  previous_transaction_indexes : Option (List Nat) := none
deriving DecidableEq, Repr

/-- FundTransaction.get_previous_transaction_indexes (lines 141-152): the
same greedy loop as `_get_previous_transaction_indexes`, over
`unspent["amount"]`. -/
def FundTransaction.get_previous_transaction_indexes (unspent : List UTXO)
    (amount : Int) : List Nat :=
  selectIndexesAux (unspent.map (fun u => u.amount)) amount 0 0

/-- FundTransaction.build_transaction (lines 96-128).  `wallet.unspent()`
is the externally fetched UTXO list carried by the `Wallet` record;
`htlc_hash` is `htlc.hash()`, the P2SH script hex of the contract. -/
def FundTransaction.build_transaction (s : FundState) (wallet : Wallet)
    (htlc_hash : String) (amount : Int) (locktime : Nat := 0) : Except PyError FundState :=
  let unspent := wallet.unspent
  let previous_transaction_indexes :=
    FundTransaction.get_previous_transaction_indexes unspent amount
  let ins_amount := Transaction.inputs unspent (some previous_transaction_indexes)
  let fee := fee_calculator ins_amount.1.length 2
  if ins_amount.2 < amount + fee then
    .error (.balanceError "insufficient spend utxos")
  else
    .ok { s with
      wallet := some wallet
      htlc := some htlc_hash
      amount := some amount
      unspent := some unspent
      previous_transaction_indexes := some previous_transaction_indexes
      fee := fee
      transaction := some
        { version := s.version
          ins := ins_amount.1
          outs := [⟨amount, 0, .p2sh htlc_hash⟩,
                   ⟨ins_amount.2 - (fee + amount), 1, .p2pkh wallet.p2pkh⟩]
          locktime := locktime } }

/-- FundTransaction.sign (lines 131-138): raises ValueError when
`self.unspent`, `self.previous_transaction_indexes` or `self.transaction`
is falsy (None or an empty list), else spends the selected outputs with
one `solver.solve()` witness per output. -/
def FundTransaction.sign (s : FundState) (solver : FundSolver) : Except PyError SignedResult :=
  match s.unspent, s.previous_transaction_indexes, s.transaction with
  | some (u :: us), some (i :: idxs), some tx =>
    let outs := Transaction.outputs (u :: us) (some (i :: idxs))
    .ok ⟨tx, outs, outs.map (fun _ => Witness.p2pkh (FundSolver.solve solver))⟩
  | _, _, _ =>
    .error (.valueError "transaction script or unspent is none, build transaction first")

/-- An entry of the `outputs` field of the serialized envelope:
`dict(amount=..., n=..., script=...)`. -/
structure OutputDict where
  amount : Int
  n : Nat
  script : String
deriving DecidableEq, Repr

/-- Loop of FundTransaction.unsigned_raw (lines 158-161) collecting
`dict(amount=utxo["amount"], n=utxo["output_index"], script=utxo["script"])`
for each selected index. -/
def unsignedRawOutputsGo (utxos : List UTXO)
    (previous_transaction_indexes : Option (List Nat)) (index : Nat) : List OutputDict :=
  match utxos with
  | [] => []
  | u :: rest =>
    if selectedIndex previous_transaction_indexes index then
      ⟨u.amount, u.output_index, u.script⟩ ::
        unsignedRawOutputsGo rest previous_transaction_indexes (index + 1)
    else
      unsignedRawOutputsGo rest previous_transaction_indexes (index + 1)

/-- The JSON object wrapped in base64 by the `unsigned_raw` methods; the
base64-of-JSON layer is an injective serialization and is modelled by the
record itself.  Absent JSON keys are `none`. -/
structure Envelope where
  fee : Int
  raw : MutableTx
  outputs : List OutputDict
  type_ : String
  network : Option String := none
  recipient_address : Option String := none
  sender_address : Option String := none
deriving DecidableEq, Repr

/-- FundTransaction.unsigned_raw (lines 154-164): raises ValueError when
`self.transaction` or `self.unspent` is falsy, else the base64 JSON
envelope with `type="fund_unsigned"` and no network key. -/
def FundTransaction.unsigned_raw (s : FundState) : Except PyError Envelope :=
  match s.transaction, s.unspent with
  | some tx, some (u :: us) =>
    .ok { fee := s.fee, raw := tx,
          outputs := unsignedRawOutputsGo (u :: us) s.previous_transaction_indexes 0,
          type_ := "fund_unsigned" }
  | _, _ =>
    .error (.valueError "transaction script or unspent is none, build transaction first")

/-- The state of a shuttle ClaimTransaction instance after its constructor
(lines 169-185) has located the funding output (`outputs[0]`) and the
funder's change output (`outputs[1]`) of the referenced transaction. -/
structure ClaimState where
  version : Nat := 2
  network : String := "testnet"
  fee : Int := 0
  htlc_transaction_id : String
  htlc_value : Int
  htlc_script_hex : String
  sender_address : String
  wallet_address : String
  wallet_p2pkh : String
  transaction : Option MutableTx := none
deriving DecidableEq, Repr

/-- ClaimTransaction.build_transaction (lines 188-202): one input spending
output 0 of the funding transaction with `sequence=Sequence.max()`, one
output paying `htlc_value - fee_calculator(1, 1)` to the recipient wallet. -/
def ClaimTransaction.build_transaction (s : ClaimState) (locktime : Nat := 0) : ClaimState :=
  { s with
    fee := fee_calculator 1 1
    transaction := some
      { version := s.version
        ins := [⟨s.htlc_transaction_id, 0, sequenceMax⟩]
        outs := [⟨s.htlc_value - fee_calculator 1 1, 0, .p2pkh s.wallet_p2pkh⟩]
        locktime := locktime } }

/-- ClaimTransaction.sign (lines 205-219): re-derives the HTLC script from
`double_sha256(solver.secret)`, the wallet (recipient) address, the cached
sender address and `solver.sequence`, then spends the funding output with a
`P2shSolver(htlc.script, solver.solve())` witness.  Before
`build_transaction`, `self.transaction` is None and `.spend` raises
AttributeError (there is no state check in this method). -/
def ClaimTransaction.sign (s : ClaimState) (solver : ClaimSolver) : Except PyError SignedResult :=
  let htlc := HTLC.init (double_sha256 solver.secret) s.wallet_address s.sender_address
    solver.sequence
  match s.transaction with
  | none => .error (.attributeError "NoneType object has no attribute spend")
  | some tx =>
    .ok ⟨tx, [⟨s.htlc_value, 0, .p2sh s.htlc_script_hex⟩],
         [Witness.p2sh htlc (ClaimSolver.solve solver)]⟩

/-- ClaimTransaction.unsigned_raw (lines 221-228). -/
def ClaimTransaction.unsigned_raw (s : ClaimState) : Except PyError Envelope :=
  match s.transaction with
  | none => .error (.valueError "Transaction script is none, Please build transaction first.")
  | some tx =>
    .ok { fee := s.fee, raw := tx,
          outputs := [⟨s.htlc_value, 0, s.htlc_script_hex⟩],
          type_ := "claim_unsigned",
          recipient_address := some s.wallet_address,
          sender_address := some s.sender_address }

/-- The state of a shuttle RefundTransaction instance after its constructor
(lines 233-249), identical in shape to ClaimState. -/
structure RefundState where
  version : Nat := 2
  network : String := "testnet"
  fee : Int := 0
  htlc_transaction_id : String
  htlc_value : Int
  htlc_script_hex : String
  sender_address : String
  wallet_address : String
  wallet_p2pkh : String
  transaction : Option MutableTx := none
deriving DecidableEq, Repr

/-- RefundTransaction.build_transaction (lines 252-266): one input spending
output 0 of the funding transaction with `sequence=Sequence.max()` (the
relative-timelock-disabling value; the contract timeout is not an input of
this method), one output paying `htlc_value - fee` to the sender wallet. -/
def RefundTransaction.build_transaction (s : RefundState) (locktime : Nat := 0) : RefundState :=
  let fee := fee_calculator 1 1
  { s with
    fee := fee
    transaction := some
      { version := s.version
        ins := [⟨s.htlc_transaction_id, 0, sequenceMax⟩]
        outs := [⟨s.htlc_value - fee, 0, .p2pkh s.wallet_p2pkh⟩]
        locktime := locktime } }

/-- RefundTransaction.sign (lines 269-283): structurally identical to
ClaimTransaction.sign, also reading `solver.secret` and `solver.sequence`
to re-derive the HTLC script. -/
def RefundTransaction.sign (s : RefundState) (solver : RefundSolver) :
    Except PyError SignedResult :=
  let htlc := HTLC.init (double_sha256 solver.secret) s.wallet_address s.sender_address
    solver.sequence
  match s.transaction with
  | none => .error (.attributeError "NoneType object has no attribute spend")
  | some tx =>
    .ok ⟨tx, [⟨s.htlc_value, 0, .p2sh s.htlc_script_hex⟩],
         [Witness.p2sh htlc (RefundSolver.solve solver)]⟩

/-- RefundTransaction.unsigned_raw (lines 285-292). -/
def RefundTransaction.unsigned_raw (s : RefundState) : Except PyError Envelope :=
  match s.transaction with
  | none => .error (.valueError "Transaction script is none, Please build transaction first.")
  | some tx =>
    .ok { fee := s.fee, raw := tx,
          outputs := [⟨s.htlc_value, 0, s.htlc_script_hex⟩],
          type_ := "refund_unsigned",
          recipient_address := some s.wallet_address,
          sender_address := some s.sender_address }

/-!
Envelope decoding, from swap/providers/bitcoin/utils.py.  The base64 and
JSON layers are injective; a parse failure of either layer is modelled by
`none`.
-/

/-- The six type tags recognized by `is_transaction_raw`
(swap/providers/bitcoin/utils.py lines 166-170). -/
def recognizedTypes : List String :=
  ["bitcoin_fund_unsigned", "bitcoin_fund_signed",
   "bitcoin_claim_unsigned", "bitcoin_claim_signed",
   "bitcoin_refund_unsigned", "bitcoin_refund_signed"]

/-- is_transaction_raw (lines 146-172): base64-decode and JSON-parse the
blob (failure of either is caught and yields False), then test membership
of the `type` value in the six recognized tags. -/
def is_transaction_raw (transaction_raw : Option Envelope) : Bool :=
  match transaction_raw with
  | none => false
  | some e => recognizedTypes.contains e.type_

/-- The dict returned by decode_transaction_raw: fee, type, decoded
transaction and network. -/
structure DecodedRaw where
  fee : Int
  type_ : String
  tx : MutableTx
  network : String
deriving DecidableEq, Repr

/-- The network names btcpy's `setup` recognizes; `setup(network,
strict=True)` raises ValueError for any other name. -/
def btcpyNetnames : List String := ["mainnet", "testnet", "regtest"]

/-- decode_transaction_raw (lines 175-223), offline path: reject unless
`is_transaction_raw` holds, re-parse, look up `loaded["network"]` (a
KeyError when the key is absent) and pass it to
`stp(loaded["network"], strict=True)` (a ValueError when the name is not
a btcpy network), unhexlify the raw hex (modelled by the carried
transaction value) and return `dict(fee=..., type=..., tx=...,
network=...)`. -/
def decode_transaction_raw (transaction_raw : Option Envelope) : Except PyError DecodedRaw :=
  if is_transaction_raw transaction_raw = false then
    .error (.transactionRawError "Invalid Bitcoin transaction raw.")
  else
    match transaction_raw with
    | none => .error (.transactionRawError "Invalid Bitcoin transaction raw.")
    | some e =>
      match e.network with
      | none => .error (.keyError "network")
      | some nw =>
        if btcpyNetnames.contains nw = false then
          .error (.valueError ("unknown network " ++ nw))
        else
          .ok ⟨e.fee, e.type_, e.raw, nw⟩

/-- A result "fails with StateError" when it is the ValueError raised by a
null-state check — the exception family the spec's StateError names
(spec sections 7 and 9). -/
def isStateError {α : Type} : Except PyError α → Bool
  | .error (.valueError _) => true
  | _ => false

/-!
Sample states used by concrete witnesses and counterexamples.
-/

/-- A wallet holding one 5000-satoshi UTXO. -/
def sampleWallet : Wallet := ⟨[⟨5000, "t0", 0, "s0"⟩], "pk", "addr"⟩

/-- The fund builder state after a successful
`build_transaction(sampleWallet, htlc, 1000)`. -/
def sampleBuiltFundState : FundState :=
  (FundTransaction.build_transaction {} sampleWallet "h" 1000 0).toOption.getD {}

/-- A claim builder state as left by the constructor (transaction not yet
built). -/
def sampleClaimState : ClaimState :=
  { htlc_transaction_id := "funding", htlc_value := 10000, htlc_script_hex := "hs",
    sender_address := "sender", wallet_address := "recipient", wallet_p2pkh := "wp" }

/-- A refund builder state as left by the constructor (transaction not yet
built). -/
def sampleRefundState : RefundState :=
  { htlc_transaction_id := "funding", htlc_value := 10000, htlc_script_hex := "hs",
    sender_address := "sender", wallet_address := "recipient", wallet_p2pkh := "wp" }

/-!
The claims.
-/

/-- C1: the claim states that RefundTransaction.build_transaction sets the
spending input's relative-timeout (sequence) field to the contract's
timeout.  The code does not: the timeout is not even an argument of the
method, and the input is built with `Sequence.max()` = 0xffffffff, the
value that disables relative-timelock enforcement (BIP 68/112), so
ledger-level validation of the refund branch's timeout can never pass on
the built transaction.  This theorem evaluates the code: for every refund
state and locktime, the single input's sequence is 4294967295. -/
theorem refund_build_transaction_sets_disabling_sequence
    (s : RefundState) (locktime : Nat) :
    ((RefundTransaction.build_transaction s locktime).transaction.map
      (fun tx => tx.ins.map (fun i => i.sequence))) = some [4294967295] := rfl

/-- C2 counterexample: at input_count = 1, output_count = 1 the fee is 576,
not the 678 = 576 + 1 * 102 prescribed by the claim's formula. -/
theorem fee_calculator_spec_formula_counterexample :
    ¬ (fee_calculator 1 1 = 576 + ((1 : Int) - 1) * 444 + (1 : Int) * 102) := by
  decide

/-- C2 (amended): the fee estimator returns
`576 + (input_count - 1) * 444 + (output_count - 1) * 102` — the last
term counts outputs beyond the first, not all outputs. -/
theorem fee_calculator_linear_model (transaction_input transaction_output : Nat) :
    fee_calculator transaction_input transaction_output
      = 576 + ((transaction_input : Int) - 1) * 444
          + ((transaction_output : Int) - 1) * 102 := by
  unfold fee_calculator
  ring

/-- C3 counterexample: with UTXO values [678, 1] and target 0, the prefix
of length 1 already accumulates 678 ≥ 0 + estimate(1, 2) = 678, so the
claim prescribes the selection [0]; the code's stop test is strict
(`>`), does not fire there, and the selector returns [0, 1]. -/
theorem selector_threshold_counterexample :
    prefixValue [⟨678, "a", 0, "s"⟩, ⟨1, "b", 1, "s"⟩] 1 ≥ 0 + fee_calculator 1 2
    ∧ _get_previous_transaction_indexes [⟨678, "a", 0, "s"⟩, ⟨1, "b", 1, "s"⟩] 0
        ≠ [0] := by
  decide

/-- C3 (amended): the greedy selector stops at the first prefix whose
accumulated sum is STRICTLY GREATER than target_amount + estimate(k, 2)
(not ≥), returning exactly that minimal prefix, the item that reached the
threshold included. -/
theorem selector_stops_at_first_strict_hit (utxos : List SwapUTXO) (amount : Int)
    (k : Nat) (hk1 : 1 ≤ k) (hk2 : k ≤ utxos.length)
    (hhit : prefixValue utxos k > amount + fee_calculator k 2)
    (hmin : ∀ j, 1 ≤ j → j < k →
      ¬ (prefixValue utxos j > amount + fee_calculator j 2)) :
    _get_previous_transaction_indexes utxos amount = List.range k := by
  unfold _get_previous_transaction_indexes
  rw [List.range_eq_range']
  refine selectIndexesAux_minimal_hit _ _ _ _ k hk1 (by simpa using hk2) ?_ ?_
  · rw [prefixValue_eq_sumTake] at hhit
    simpa using hhit
  · intro j hj1 hj2
    have := hmin j hj1 hj2
    rw [prefixValue_eq_sumTake] at this
    simpa using this

/-- Witness for C3's amended theorem at a concrete input: a single
2000-satoshi UTXO against target 0 trips the strict test at k = 1. -/
theorem selector_stops_at_first_strict_hit_witness :
    1 ≤ 1 ∧ (1 : Nat) ≤ ([⟨2000, "a", 0, "s"⟩] : List SwapUTXO).length
    ∧ prefixValue [⟨2000, "a", 0, "s"⟩] 1 > 0 + fee_calculator 1 2
    ∧ _get_previous_transaction_indexes [⟨2000, "a", 0, "s"⟩] 0 = List.range 1 :=
  ⟨le_rfl, by decide, by decide,
   selector_stops_at_first_strict_hit [⟨2000, "a", 0, "s"⟩] 0 1 le_rfl (by decide)
     (by decide) (fun j hj1 hj2 => by omega)⟩

/-- C4: Fund build_transaction fails with the insufficient-funds error iff
the accumulated amount of the selected UTXOs is strictly below
target + fee (fee estimated over the selected input count and 2 outputs);
on success the built transaction has exactly two outputs: the
contract-locking P2SH output of the target amount at index 0 and the
change output `accumulated - fee - target` to the funder at index 1. -/
theorem fund_build_transaction_balance_and_outputs (s : FundState) (wallet : Wallet)
    (htlc_hash : String) (amount : Int) (locktime : Nat) :
    (FundTransaction.build_transaction s wallet htlc_hash amount locktime
        = .error (.balanceError "insufficient spend utxos")
      ↔ (Transaction.inputs wallet.unspent
          (some (FundTransaction.get_previous_transaction_indexes wallet.unspent amount))).2
          < amount + fee_calculator (Transaction.inputs wallet.unspent
              (some (FundTransaction.get_previous_transaction_indexes
                wallet.unspent amount))).1.length 2)
    ∧ (∀ s' : FundState,
        FundTransaction.build_transaction s wallet htlc_hash amount locktime = .ok s' →
        s'.transaction = some
          { version := s.version
            ins := (Transaction.inputs wallet.unspent
              (some (FundTransaction.get_previous_transaction_indexes
                wallet.unspent amount))).1
            outs := [⟨amount, 0, .p2sh htlc_hash⟩,
                     ⟨(Transaction.inputs wallet.unspent
                          (some (FundTransaction.get_previous_transaction_indexes
                            wallet.unspent amount))).2
                        - (fee_calculator (Transaction.inputs wallet.unspent
                            (some (FundTransaction.get_previous_transaction_indexes
                              wallet.unspent amount))).1.length 2 + amount), 1,
                      .p2pkh wallet.p2pkh⟩]
            locktime := locktime }) := by
  unfold FundTransaction.build_transaction
  dsimp only
  split
  · rename_i h
    exact ⟨iff_of_true rfl h, fun s' hok => by simp at hok⟩
  · rename_i h
    refine ⟨iff_of_false (by simp) h, fun s' hok => ?_⟩
    rw [show s' = _ from (Except.ok.injEq _ _).mp hok.symm]

/-- Witness for C4 at a concrete input: one 5000-satoshi UTXO funding a
1000-satoshi contract; fee 678, change 3322. -/
theorem fund_build_transaction_balance_and_outputs_witness :
    FundTransaction.build_transaction {} sampleWallet "h" 1000 0 = .ok sampleBuiltFundState
    ∧ sampleBuiltFundState.transaction = some
        { version := 2
          ins := [⟨"t0", 0, 4294967295⟩]
          outs := [⟨1000, 0, .p2sh "h"⟩, ⟨3322, 1, .p2pkh "pk"⟩]
          locktime := 0 } :=
  ⟨by decide,
   (fund_build_transaction_balance_and_outputs {} sampleWallet "h" 1000 0).2
     sampleBuiltFundState (by decide)⟩

/-- C5 counterexample: calling ClaimTransaction.sign before
build_transaction does fail, but with the uncontrolled AttributeError from
dereferencing the None transaction (`self.transaction.spend`), not with
the ValueError-family state error the claim requires. -/
theorem claim_sign_unbuilt_attribute_error :
    ClaimTransaction.sign sampleClaimState ⟨"k", [0], 1000⟩
      = .error (.attributeError "NoneType object has no attribute spend")
    ∧ isStateError (ClaimTransaction.sign sampleClaimState ⟨"k", [0], 1000⟩) = false :=
  ⟨rfl, rfl⟩

/-- C5 (amended): before build_transaction, raw and id (txid) fail with the
state error in all three variants, as do to_portable_format (unsigned_raw)
in all three variants and Fund sign; Claim and Refund sign also fail, but
with an AttributeError on the None transaction rather than the state
error. -/
theorem state_order_enforcement
    (f : FundState) (c : ClaimState) (r : RefundState)
    (fsol : FundSolver) (csol : ClaimSolver) (rsol : RefundSolver)
    (hfu : f.unspent = none) (hft : f.transaction = none)
    (hct : c.transaction = none) (hrt : r.transaction = none) :
    isStateError (Transaction.raw f.transaction) = true
    ∧ isStateError (Transaction.hash f.transaction) = true
    ∧ isStateError (Transaction.raw c.transaction) = true
    ∧ isStateError (Transaction.hash c.transaction) = true
    ∧ isStateError (Transaction.raw r.transaction) = true
    ∧ isStateError (Transaction.hash r.transaction) = true
    ∧ isStateError (FundTransaction.sign f fsol) = true
    ∧ isStateError (FundTransaction.unsigned_raw f) = true
    ∧ isStateError (ClaimTransaction.unsigned_raw c) = true
    ∧ isStateError (RefundTransaction.unsigned_raw r) = true
    ∧ ClaimTransaction.sign c csol
        = .error (.attributeError "NoneType object has no attribute spend")
    ∧ RefundTransaction.sign r rsol
        = .error (.attributeError "NoneType object has no attribute spend") := by
  rw [hft, hct, hrt]
  refine ⟨rfl, rfl, rfl, rfl, rfl, rfl, ?_, ?_, ?_, ?_, ?_, ?_⟩
  · unfold FundTransaction.sign
    rw [hfu]
    rfl
  · unfold FundTransaction.unsigned_raw
    rw [hft]
    rfl
  · unfold ClaimTransaction.unsigned_raw
    rw [hct]
    rfl
  · unfold RefundTransaction.unsigned_raw
    rw [hrt]
    rfl
  · unfold ClaimTransaction.sign
    rw [hct]
  · unfold RefundTransaction.sign
    rw [hrt]

/-- Witness for C5's amended theorem at freshly constructed states. -/
theorem state_order_enforcement_witness :
    ({} : FundState).unspent = none ∧ ({} : FundState).transaction = none
    ∧ sampleClaimState.transaction = none ∧ sampleRefundState.transaction = none
    ∧ (isStateError (Transaction.raw ({} : FundState).transaction) = true
       ∧ isStateError (Transaction.hash ({} : FundState).transaction) = true
       ∧ isStateError (Transaction.raw sampleClaimState.transaction) = true
       ∧ isStateError (Transaction.hash sampleClaimState.transaction) = true
       ∧ isStateError (Transaction.raw sampleRefundState.transaction) = true
       ∧ isStateError (Transaction.hash sampleRefundState.transaction) = true
       ∧ isStateError (FundTransaction.sign {} ⟨"k"⟩) = true
       ∧ isStateError (FundTransaction.unsigned_raw {}) = true
       ∧ isStateError (ClaimTransaction.unsigned_raw sampleClaimState) = true
       ∧ isStateError (RefundTransaction.unsigned_raw sampleRefundState) = true
       ∧ ClaimTransaction.sign sampleClaimState ⟨"k", [0], 5⟩
           = .error (.attributeError "NoneType object has no attribute spend")
       ∧ RefundTransaction.sign sampleRefundState ⟨"k", [0], 5⟩
           = .error (.attributeError "NoneType object has no attribute spend")) :=
  ⟨rfl, rfl, rfl, rfl,
   state_order_enforcement {} sampleClaimState sampleRefundState
     ⟨"k"⟩ ⟨"k", [0], 5⟩ ⟨"k", [0], 5⟩ rfl rfl rfl rfl⟩

/-- C6 counterexample: the envelope produced by the shuttle Fund builder
carries type tag "fund_unsigned" (no "bitcoin_" prefix, no network key),
which decode_transaction_raw rejects, so decode of encode does not recover
the metadata. -/
theorem decode_rejects_shuttle_encoded_envelope :
    (FundTransaction.unsigned_raw sampleBuiltFundState).map
        (fun e => decode_transaction_raw (some e))
      = .ok (.error (.transactionRawError "Invalid Bitcoin transaction raw.")) := by
  decide

/-- C6 (amended): decoding recovers fee, type tag, network and raw
transaction exactly for every envelope whose type tag is one of the six
recognized "bitcoin_*" values and whose network field holds a name the
btcpy network setup accepts; an envelope with a recognized tag but an
unrecognized network name fails the setup ValueError; any envelope with
an unrecognized type tag is rejected, as is an unparsable blob.  The
envelopes emitted by the shuttle builders use the unprefixed tags and
omit the network key, so the decoder rejects them. -/
theorem decode_transaction_raw_roundtrip (e : Envelope) (nw : String) :
    (recognizedTypes.contains e.type_ = true → e.network = some nw →
      btcpyNetnames.contains nw = true →
      decode_transaction_raw (some e) = .ok ⟨e.fee, e.type_, e.raw, nw⟩)
    ∧ (recognizedTypes.contains e.type_ = true → e.network = some nw →
      btcpyNetnames.contains nw = false →
      decode_transaction_raw (some e) = .error (.valueError ("unknown network " ++ nw)))
    ∧ (recognizedTypes.contains e.type_ = false →
      decode_transaction_raw (some e)
        = .error (.transactionRawError "Invalid Bitcoin transaction raw."))
    ∧ decode_transaction_raw none
        = .error (.transactionRawError "Invalid Bitcoin transaction raw.") := by
  refine ⟨fun ht hn hw => ?_, fun ht hn hw => ?_, fun ht => ?_, rfl⟩
  · have h1 : is_transaction_raw (some e) = true := ht
    unfold decode_transaction_raw
    rw [h1]
    dsimp only
    rw [hn]
    dsimp only
    rw [hw]
    rfl
  · have h1 : is_transaction_raw (some e) = true := ht
    unfold decode_transaction_raw
    rw [h1]
    dsimp only
    rw [hn]
    dsimp only
    rw [hw]
    rfl
  · have h1 : is_transaction_raw (some e) = false := ht
    unfold decode_transaction_raw
    rw [h1]
    rfl

/-- Witness for C6's amended theorem at a concrete recognized envelope. -/
theorem decode_transaction_raw_roundtrip_witness :
    recognizedTypes.contains "bitcoin_fund_unsigned" = true
    ∧ btcpyNetnames.contains "testnet" = true
    ∧ decode_transaction_raw
        (some ⟨678, ⟨2, [], [], 0⟩, [], "bitcoin_fund_unsigned", some "testnet", none, none⟩)
        = .ok ⟨678, "bitcoin_fund_unsigned", ⟨2, [], [], 0⟩, "testnet"⟩ :=
  ⟨by decide, by decide,
   (decode_transaction_raw_roundtrip
       ⟨678, ⟨2, [], [], 0⟩, [], "bitcoin_fund_unsigned", some "testnet", none, none⟩
       "testnet").1 (by decide) rfl (by decide)⟩

set_option maxRecDepth 200000 in
/-- C7 counterexample: two refund solvers agreeing on the private key and
the sequence but differing in the secret produce different signing
results — RefundTransaction.sign re-derives the contract with
`double_sha256(solver.secret)`, so the P2SH witness embeds a different
redeem script for each secret. -/
theorem refund_sign_depends_on_secret :
    RefundTransaction.sign (RefundTransaction.build_transaction sampleRefundState 0)
        ⟨"senderkey", [0], 1000⟩
      ≠ RefundTransaction.sign (RefundTransaction.build_transaction sampleRefundState 0)
        ⟨"senderkey", [1], 1000⟩ := by
  decide

/-- C7 (amended): the refund witness depends on the solver's secret in
addition to the private key and sequence; refund solvers agreeing on
private key, sequence AND secret produce the same unlocking witness. -/
theorem refund_sign_same_solver_inputs_same_witness (st : RefundState)
    (s1 s2 : RefundSolver) (hk : s1.private_key = s2.private_key)
    (hq : s1.sequence = s2.sequence) (hs : s1.secret = s2.secret) :
    RefundTransaction.sign st s1 = RefundTransaction.sign st s2 := by
  obtain ⟨k1, c1, q1⟩ := s1
  obtain ⟨k2, c2, q2⟩ := s2
  cases hk
  cases hq
  cases hs
  rfl

/-- Witness for C7's amended theorem at concrete equal solvers. -/
theorem refund_sign_same_solver_inputs_same_witness_witness :
    ("k" = "k") ∧ ((7 : Nat) = 7) ∧ (([2, 3] : List Nat) = [2, 3])
    ∧ RefundTransaction.sign (RefundTransaction.build_transaction sampleRefundState 0)
        ⟨"k", [2, 3], 7⟩
      = RefundTransaction.sign (RefundTransaction.build_transaction sampleRefundState 0)
        ⟨"k", [2, 3], 7⟩ :=
  ⟨rfl, rfl, rfl,
   refund_sign_same_solver_inputs_same_witness
     (RefundTransaction.build_transaction sampleRefundState 0)
     ⟨"k", [2, 3], 7⟩ ⟨"k", [2, 3], 7⟩ rfl rfl rfl⟩

/-- C8: ClaimTransaction.sign spends the funding output with a witness
whose redeem script is freshly derived as
`HTLC.init(double_sha256(solver.secret), wallet_address, sender_address,
solver.sequence)` — a function of the solver-supplied preimage and
sequence and the identities only, not of the cached funding-output script
`htlc_script_hex` (which appears solely as the scriptPubKey of the spent
output, never as the witness's redeem script). -/
theorem claim_sign_recomputes_contract_script (s : ClaimState) (solver : ClaimSolver)
    (tx : MutableTx) (h : s.transaction = some tx) :
    ClaimTransaction.sign s solver
      = .ok ⟨tx, [⟨s.htlc_value, 0, .p2sh s.htlc_script_hex⟩],
             [Witness.p2sh
               (HTLC.init (double_sha256 solver.secret) s.wallet_address s.sender_address
                 solver.sequence)
               (ClaimSolver.solve solver)]⟩ := by
  unfold ClaimTransaction.sign
  rw [h]

/-- Witness for C8 at a concrete built claim state. -/
theorem claim_sign_recomputes_contract_script_witness :
    (ClaimTransaction.build_transaction sampleClaimState 0).transaction
      = some ⟨2, [⟨"funding", 0, 4294967295⟩], [⟨9424, 0, .p2pkh "wp"⟩], 0⟩
    ∧ ClaimTransaction.sign (ClaimTransaction.build_transaction sampleClaimState 0)
        ⟨"rkey", [9], 444⟩
      = .ok ⟨⟨2, [⟨"funding", 0, 4294967295⟩], [⟨9424, 0, .p2pkh "wp"⟩], 0⟩,
             [⟨10000, 0, .p2sh "hs"⟩],
             [Witness.p2sh
               (HTLC.init (double_sha256 [9]) "recipient" "sender" 444)
               (ClaimSolver.solve ⟨"rkey", [9], 444⟩)]⟩ :=
  ⟨by decide,
   claim_sign_recomputes_contract_script (ClaimTransaction.build_transaction sampleClaimState 0)
     ⟨"rkey", [9], 444⟩ ⟨2, [⟨"funding", 0, 4294967295⟩], [⟨9424, 0, .p2pkh "wp"⟩], 0⟩
     (by decide)⟩

/-- C9: the fee estimator's fixed regression values. -/
theorem fee_calculator_regression_values :
    fee_calculator 2 9 = 1836 ∧ fee_calculator 1 1 = 576 := by
  decide

/-- C10: the selector always returns a contiguous prefix of indexes
0, 1, ..., k-1 of the input list (never skipping an index and never
exceeding its length), and when no prefix trips the stop threshold it
returns every index, leaving insufficiency detection to the Fund
builder. -/
theorem selector_contiguous_from_zero (utxos : List SwapUTXO) (amount : Int) :
    _get_previous_transaction_indexes utxos amount
        = List.range (_get_previous_transaction_indexes utxos amount).length
    ∧ (_get_previous_transaction_indexes utxos amount).length ≤ utxos.length
    ∧ ((∀ j, 1 ≤ j → j ≤ utxos.length →
          ¬ (prefixValue utxos j > amount + fee_calculator j 2)) →
        _get_previous_transaction_indexes utxos amount = List.range utxos.length) := by
  refine ⟨?_, ?_, ?_⟩
  · unfold _get_previous_transaction_indexes
    rw [List.range_eq_range']
    exact selectIndexesAux_eq_range' _ _ _ _
  · have := selectIndexesAux_length_le (utxos.map (fun u => u.value)) amount 0 0
    simpa [_get_previous_transaction_indexes] using this
  · intro hnone
    unfold _get_previous_transaction_indexes
    rw [List.range_eq_range']
    have hlen : utxos.length = (utxos.map (fun u => u.value)).length := by simp
    rw [show List.range' 0 utxos.length
          = List.range' 0 (utxos.map (fun u => u.value)).length from by rw [← hlen]]
    refine selectIndexesAux_exhausts _ _ _ _ ?_
    intro j hj1 hj2
    have := hnone j hj1 (by simpa using hj2)
    rw [prefixValue_eq_sumTake] at this
    simpa using this

/-- Witness for C10 at a concrete input: a single 1-satoshi UTXO never
reaches target 1000000 plus fee, and every index is returned. -/
theorem selector_contiguous_from_zero_witness :
    (∀ j, 1 ≤ j → j ≤ ([⟨1, "a", 0, "s"⟩] : List SwapUTXO).length →
        ¬ (prefixValue [⟨1, "a", 0, "s"⟩] j > 1000000 + fee_calculator j 2))
    ∧ _get_previous_transaction_indexes [⟨1, "a", 0, "s"⟩] 1000000
        = List.range ([⟨1, "a", 0, "s"⟩] : List SwapUTXO).length :=
  ⟨fun j hj1 hj2 => by
      have hj : j = 1 := Nat.le_antisymm (by simpa using hj2) hj1
      subst hj
      decide,
   (selector_contiguous_from_zero [⟨1, "a", 0, "s"⟩] 1000000).2.2
     (fun j hj1 hj2 => by
       have hj : j = 1 := Nat.le_antisymm (by simpa using hj2) hj1
       subst hj
       decide)⟩

end AtomicSwap
